import Mathlib

/-!
# Verification of the Instagram embed lazy loader

A shallow embedding of `src/instagram-lazy-loader.js`, the lazy-loading embed
controller of the repository, together with proofs of the specification's
claims about it.

The embedding has two parts:

* a model of `processEmbed` (the per-descriptor activation routine with its
  retry chain), together with the three guarded trigger entry points
  (manual button, intersection-observer callback, eager preload);
* a model of `loadInstagramScript` (the shared script dependency gate) as a
  state machine driven by a trace of call / onload / onerror events.

DOM nodes are modelled by the attributes the controller reads and writes;
machine behaviour (promise sharing, one-shot script events) is made explicit.
-/

namespace LazyLoader

/-- The `CONFIG` object of the source (the fields the retry logic uses;
`rootMargin`, `threshold` and `scriptSrc` only parametrise the browser APIs
and carry no logic). -/
structure Config where
  maxRetries : Nat
  retryDelay : Nat
deriving Repr, DecidableEq

/-- `CONFIG = { maxRetries: 3, retryDelay: 1000 }`. -/
def CONFIG : Config := { maxRetries := 3, retryDelay := 1000 }

/-- The `.instagram-placeholder` child of a wrapper: whether it has a
`.placeholder-overlay` child, whether that overlay currently shows the
error markup, and whether `style.display` has been set to `none`. -/
structure Placeholder where
  hasOverlay : Bool
  overlayErrorShown : Bool
  displayNone : Bool
deriving Repr, DecidableEq

/-- An `.instagram-lazy-wrapper` node, modelled by the attributes the
controller reads and writes: the `data-permalink` attribute, the
`.instagram-placeholder` child (if any), the list of embed blockquotes
appended so far (each recorded by its permalink), and whether the
`loaded` class is present. -/
structure Wrapper where
  permalink : Option String
  placeholder : Option Placeholder
  embeds : List String
  loadedClass : Bool
deriving Repr, DecidableEq

/-- `createInstagramEmbed`: builds the embed blockquote for a permalink.
Only the carried permalink is observable to the controller, so the fragment
is modelled by it. -/
def createInstagramEmbed (permalink : String) : String := permalink

/-- Observable side effects of one `processEmbed` call chain:
`warns` counts `console.warn('Invalid Instagram embed wrapper')`;
`scriptLoadCalls` counts invocations of `loadInstagramScript()`;
`invocations` lists the `retryCount` argument of every `processEmbed`
invocation of the chain, in order; `retryDelays` lists the delays passed to
`setTimeout` for scheduled retries, in order; `hookCalls` counts invocations
of `window.instgrm.Embeds.process()`; `hookErrorsLogged` counts exceptions
the hook threw that were caught and logged; `maxRetriesErrors` counts
`console.error('Max retries reached...')`. -/
structure Effects where
  warns : Nat
  scriptLoadCalls : Nat
  invocations : List Nat
  retryDelays : List Nat
  hookCalls : Nat
  hookErrorsLogged : Nat
  maxRetriesErrors : Nat
deriving Repr, DecidableEq

/-- The empty effect record. -/
def Effects.empty : Effects := ⟨0, 0, [], [], 0, 0, 0⟩

/-- The terminal-failure branch of `processEmbed` (source lines 178-191):
re-query `.instagram-placeholder`; if present, query `.placeholder-overlay`
inside it; if that is present too, replace its `innerHTML` with the error
affordance. If either query fails the branch changes nothing. -/
def showErrorState (w : Wrapper) : Wrapper :=
  match w.placeholder with
  | none => w
  | some ph =>
    if ph.hasOverlay then
      { w with placeholder := some { ph with overlayErrorShown := true } }
    else w

/-- The body of `processEmbed(wrapper, retryCount)`, with the recursion made
structural on a `fuel` argument.  The caller supplies
`fuel = cfg.maxRetries - retryCount`, which the recursion maintains, so the
`fuel = 0` escape under `retryCount < cfg.maxRetries` is never taken.

Parameters model the environment of the call chain: `hookPresent` is
`window.instgrm && window.instgrm.Embeds`, `hookThrows` is whether
`instgrm.Embeds.process()` throws (its exception is caught inside the timer
callback and only logged), and `fails n` tells whether the awaited
`loadInstagramScript()` of the attempt with `retryCount = n` rejects. -/
def processEmbedAux (cfg : Config) (hookPresent hookThrows : Bool)
    (fails : Nat → Bool) : Nat → Wrapper → Nat → Wrapper × Effects
  | fuel, w, retryCount =>
    match w.permalink, w.placeholder with
    | some permalink, some ph =>
      if fails retryCount then
        -- `await loadInstagramScript()` rejected: the catch block runs
        if retryCount < cfg.maxRetries then
          match fuel with
          | 0 =>
            -- unreachable: the caller keeps `fuel = cfg.maxRetries - retryCount`
            (w, { Effects.empty with scriptLoadCalls := 1,
                                     invocations := [retryCount] })
          | fuel' + 1 =>
            let rest := processEmbedAux cfg hookPresent hookThrows fails
                          fuel' w (retryCount + 1)
            (rest.1,
             { rest.2 with
                 scriptLoadCalls := rest.2.scriptLoadCalls + 1,
                 invocations := retryCount :: rest.2.invocations,
                 retryDelays :=
                   cfg.retryDelay * (retryCount + 1) :: rest.2.retryDelays })
        else
          (showErrorState w,
           { Effects.empty with scriptLoadCalls := 1,
                                invocations := [retryCount],
                                maxRetriesErrors := 1 })
      else
        -- script loaded: hide the placeholder, append the embed, mark loaded,
        -- then best-effort invoke the hook inside a guarded timer callback
        ({ w with
             placeholder := some { ph with displayNone := true },
             embeds := w.embeds ++ [createInstagramEmbed permalink],
             loadedClass := true },
         { Effects.empty with
             scriptLoadCalls := 1,
             invocations := [retryCount],
             hookCalls := if hookPresent then 1 else 0,
             hookErrorsLogged := if hookPresent && hookThrows then 1 else 0 })
    | _, _ =>
      -- `!permalink || !placeholder`: warn and return
      (w, { Effects.empty with warns := 1, invocations := [retryCount] })

/-- `processEmbed(wrapper, retryCount = 0)`: the activation routine.  Note
that it performs no check of the `loaded` class itself. -/
def processEmbed (cfg : Config) (hookPresent hookThrows : Bool)
    (fails : Nat → Bool) (w : Wrapper) (retryCount : Nat := 0) :
    Wrapper × Effects :=
  processEmbedAux cfg hookPresent hookThrows fails
    (cfg.maxRetries - retryCount) w retryCount

/-- The manual load button click handler (source lines 207-213): invoke
`processEmbed(wrapper)` — with the default `retryCount = 0` — only if the
wrapper does not carry the `loaded` class. -/
def manualClick (cfg : Config) (hookPresent hookThrows : Bool)
    (fails : Nat → Bool) (w : Wrapper) : Wrapper × Effects :=
  if !w.loadedClass then
    processEmbed cfg hookPresent hookThrows fails w
  else (w, Effects.empty)

/-- The intersection-observer callback body for one entry (source lines
238-249): if the entry is intersecting and the wrapper is not `loaded`,
invoke `processEmbed(wrapper)`; the wrapper is unobserved either way. -/
def observerTrigger (cfg : Config) (hookPresent hookThrows : Bool)
    (fails : Nat → Bool) (isIntersecting : Bool) (w : Wrapper) :
    Wrapper × Effects :=
  if isIntersecting && !w.loadedClass then
    processEmbed cfg hookPresent hookThrows fails w
  else (w, Effects.empty)

/-- The per-wrapper body of `preloadVisibleEmbeds` (source lines 270-282):
if the wrapper's bounding rect is fully inside the viewport and the wrapper
is not `loaded`, invoke `processEmbed(wrapper)`. -/
def preloadTrigger (cfg : Config) (hookPresent hookThrows : Bool)
    (fails : Nat → Bool) (isVisible : Bool) (w : Wrapper) :
    Wrapper × Effects :=
  if isVisible && !w.loadedClass then
    processEmbed cfg hookPresent hookThrows fails w
  else (w, Effects.empty)

/-! ## The script dependency gate

A model of `loadInstagramScript` (source lines 33-79) and the two module
variables it manipulates, `isInstagramScriptLoaded` and
`instagramScriptPromise`.  Promise objects are numbered in order of
creation; `promises` records each promise's current settlement.  The ghost
field `armed` lists the promise ids of appended script elements whose
`onload`/`onerror` has not yet fired: the DOM fires these handlers at most
once per element, which the model captures by disarming on first fire. -/

/-- Settlement of one promise object. -/
inductive PromiseOutcome where
  | pending
  | resolvedOutcome
  | rejectedOutcome
deriving Repr, DecidableEq

/-- The module-level state of the gate. -/
structure LoaderState where
  isInstagramScriptLoaded : Bool
  instagramScriptPromise : Option Nat
  promises : List PromiseOutcome
  scriptsAppended : Nat
  armed : List Nat
deriving Repr, DecidableEq

/-- The state at page initialisation: nothing loaded, no promise, no script
element appended. -/
def initLoader : LoaderState :=
  { isInstagramScriptLoaded := false
    instagramScriptPromise := none
    promises := []
    scriptsAppended := 0
    armed := [] }

/-- One call of `loadInstagramScript()`.  `existing` is the result of the
`document.querySelector` check for an already-present script element with
the configured `src`.  Returns the new state and the id of the promise the
caller receives. -/
def loadInstagramScript (existing : Bool) (s : LoaderState) :
    LoaderState × Nat :=
  match s.instagramScriptPromise with
  | some p =>
    -- return existing promise if already loading
    (s, p)
  | none =>
    if s.isInstagramScriptLoaded then
      -- return a fresh resolved promise if already loaded
      ({ s with promises := s.promises ++ [.resolvedOutcome] },
       s.promises.length)
    else
      let pid := s.promises.length
      if existing then
        -- script already in the document: mark loaded and resolve at once
        ({ s with
             isInstagramScriptLoaded := true
             instagramScriptPromise := some pid
             promises := s.promises ++ [.resolvedOutcome] }, pid)
      else
        -- create the script element, install handlers, append to body
        ({ s with
             instagramScriptPromise := some pid
             promises := s.promises ++ [.pending]
             scriptsAppended := s.scriptsAppended + 1
             armed := s.armed ++ [pid] }, pid)

/-- The `script.onload` handler of the attempt whose promise is `pid`: set
`isInstagramScriptLoaded` and resolve.  Fires only while the element is
armed. -/
def scriptOnload (pid : Nat) (s : LoaderState) : LoaderState :=
  if pid ∈ s.armed then
    { s with
        isInstagramScriptLoaded := true
        promises := s.promises.set pid .resolvedOutcome
        armed := s.armed.erase pid }
  else s

/-- The `script.onerror` handler of the attempt whose promise is `pid`:
null out `instagramScriptPromise` and reject.  Fires only while the element
is armed. -/
def scriptOnerror (pid : Nat) (s : LoaderState) : LoaderState :=
  if pid ∈ s.armed then
    { s with
        instagramScriptPromise := none
        promises := s.promises.set pid .rejectedOutcome
        armed := s.armed.erase pid }
  else s

/-- Events that drive the gate during one page lifetime. -/
inductive LoaderEv where
  | call (existing : Bool)
  | onload (pid : Nat)
  | onerror (pid : Nat)
deriving Repr, DecidableEq

/-- One event step over the gate state paired with the accumulated list of
promise ids handed back to callers. -/
def loaderStep (s : LoaderState × List Nat) (e : LoaderEv) :
    LoaderState × List Nat :=
  match e with
  | .call existing =>
    let r := loadInstagramScript existing s.1
    (r.1, s.2 ++ [r.2])
  | .onload pid => (scriptOnload pid s.1, s.2)
  | .onerror pid => (scriptOnerror pid s.1, s.2)

/-- Run a trace of gate events from page initialisation. -/
def runLoader (tr : List LoaderEv) : LoaderState × List Nat :=
  tr.foldl loaderStep (initLoader, [])

/-! ## The gate at document level

`LoaderEv.call` above takes the `querySelector` result as a free per-call
input, which over-approximates the set of traces (sound for the safety
property proved over all error-free traces).  For claims about what a later
call actually does, the document itself must be modelled: the script
element appended at source line 70 persists — neither `onload` (lines
59-62) nor `onerror` (lines 64-68) removes it, and nothing else in the
repository does — so the `querySelector` check of line 47 finds it on every
subsequent call.  `GateState` pairs the module state with the presence in
the document of a script element carrying the configured `src`. -/

/-- The gate's module state together with the document: whether a script
element with `src = CONFIG.scriptSrc` is present. -/
structure GateState where
  loader : LoaderState
  scriptInDocument : Bool
deriving Repr, DecidableEq

/-- The document state when the page initialises: `preExisting` tells
whether other page code already put a script element with the configured
`src` into the document. -/
def initGate (preExisting : Bool) : GateState :=
  { loader := initLoader, scriptInDocument := preExisting }

/-- One call of `loadInstagramScript()` at document level: the
`querySelector` argument is the actual presence of the element, and taking
the append branch puts the element into the document for good. -/
def gateCall (g : GateState) : GateState × Nat :=
  let r := loadInstagramScript g.scriptInDocument g.loader
  ({ loader := r.1
     scriptInDocument :=
       g.scriptInDocument
         || decide (g.loader.scriptsAppended < r.1.scriptsAppended) },
   r.2)

/-- `script.onload` at document level: the element stays in the
document. -/
def gateOnload (pid : Nat) (g : GateState) : GateState :=
  { g with loader := scriptOnload pid g.loader }

/-- `script.onerror` at document level: the handler nulls the stored
promise and rejects, but never removes the failed element from the
document (source lines 64-68). -/
def gateOnerror (pid : Nat) (g : GateState) : GateState :=
  { g with loader := scriptOnerror pid g.loader }

/-- Document-level gate events. -/
inductive GateEv where
  | call
  | onload (pid : Nat)
  | onerror (pid : Nat)
deriving Repr, DecidableEq

/-- One document-level event step, accumulating the promise ids handed to
callers. -/
def gateStep (g : GateState × List Nat) (e : GateEv) :
    GateState × List Nat :=
  match e with
  | .call =>
    let r := gateCall g.1
    (r.1, g.2 ++ [r.2])
  | .onload pid => (gateOnload pid g.1, g.2)
  | .onerror pid => (gateOnerror pid g.1, g.2)

/-- Run a trace of document-level gate events from page initialisation. -/
def runGate (preExisting : Bool) (tr : List GateEv) : GateState × List Nat :=
  tr.foldl gateStep (initGate preExisting, [])

/-! ## Automatic trigger interleaving for one descriptor

A small-step model of how the two automatic trigger paths —
the intersection-observer callback (source lines 237-250) and
`preloadVisibleEmbeds` (source lines 267-283) — interleave with the
asynchronous completion of `processEmbed` for a single wrapper.  An
activation started by a trigger first suspends at
`await loadInstagramScript()`; only when it completes does the wrapper gain
the `loaded` class (source lines 150-155).  `pending` counts activations
started but not yet completed; the ghost counter `started` counts how many
times `processEmbed` has been invoked on the wrapper. -/

/-- One descriptor's page-level state. -/
structure PageState where
  w : Wrapper
  visible : Bool
  observed : Bool
  pending : Nat
  started : Nat
deriving Repr, DecidableEq

/-- The synchronous tail of a successful `processEmbed` attempt (source
lines 150-155): hide the placeholder, append the embed blockquote, add the
`loaded` class. -/
def completeSuccess (w : Wrapper) : Wrapper :=
  match w.permalink, w.placeholder with
  | some permalink, some ph =>
    { w with
        placeholder := some { ph with displayNone := true }
        embeds := w.embeds ++ [createInstagramEmbed permalink]
        loadedClass := true }
  | _, _ => w

/-- Events for one descriptor: the observer reports it intersecting, the
post-load preload pass checks it, or a started activation's awaited script
load resolves and the success tail runs. -/
inductive PageEv where
  | observerFire
  | preloadRun
  | complete
deriving Repr, DecidableEq

/-- One event step.  `observerFire` starts an activation only if the
wrapper lacks the `loaded` class, and unobserves the wrapper either way
(one-shot).  `preloadRun` starts an activation if the wrapper is fully
visible and lacks the `loaded` class.  `complete` finishes one pending
activation, mutating the wrapper. -/
def pageStep (s : PageState) : PageEv → PageState
  | .observerFire =>
    if s.observed then
      if !s.w.loadedClass then
        { s with observed := false, pending := s.pending + 1,
                 started := s.started + 1 }
      else { s with observed := false }
    else s
  | .preloadRun =>
    if s.visible && !s.w.loadedClass then
      { s with pending := s.pending + 1, started := s.started + 1 }
    else s
  | .complete =>
    match s.pending with
    | 0 => s
    | n + 1 => { s with w := completeSuccess s.w, pending := n }

/-- A descriptor visible at page load, observed, with a well-formed wrapper
and no activity yet. -/
def initPage (w : Wrapper) : PageState :=
  { w := w, visible := true, observed := true, pending := 0, started := 0 }

/-- Run a trace of page events. -/
def runPage (w : Wrapper) (tr : List PageEv) : PageState :=
  tr.foldl pageStep (initPage w)

/-! ## Concrete fixtures -/

/-- A well-formed, not-yet-activated wrapper: permalink set, placeholder
with overlay present. -/
def validWrapper : Wrapper :=
  { permalink := some "https://www.instagram.com/p/TEST/"
    placeholder := some { hasOverlay := true, overlayErrorShown := false,
                          displayNone := false }
    embeds := []
    loadedClass := false }

/-- A wrapper in the Loaded state: placeholder hidden, one embed attached,
`loaded` class present. -/
def loadedWrapper : Wrapper :=
  { permalink := some "https://www.instagram.com/p/TEST/"
    placeholder := some { hasOverlay := true, overlayErrorShown := false,
                          displayNone := true }
    embeds := ["https://www.instagram.com/p/TEST/"]
    loadedClass := true }

/-- A well-formed wrapper whose placeholder has no `.placeholder-overlay`
child. -/
def noOverlayWrapper : Wrapper :=
  { permalink := some "https://www.instagram.com/p/TEST/"
    placeholder := some { hasOverlay := false, overlayErrorShown := false,
                          displayNone := false }
    embeds := []
    loadedClass := false }

/-- A malformed wrapper: no `data-permalink` attribute. -/
def noPermalinkWrapper : Wrapper :=
  { permalink := none
    placeholder := some { hasOverlay := true, overlayErrorShown := false,
                          displayNone := false }
    embeds := []
    loadedClass := false }

/-! ## Theorems -/

/-- C9: if a script element with the configured `src` is already in the
document when the gate first runs, `loadInstagramScript` marks the script
Loaded and resolves at once: no new element is appended
(`scriptsAppended = 0`), nothing is armed awaiting a load signal, and the
returned promise (id 0) is already resolved — readiness is assumed, not
verified. -/
theorem c9_existing_script_assumed_ready :
    loadInstagramScript true initLoader =
      ({ isInstagramScriptLoaded := true
         instagramScriptPromise := some 0
         promises := [.resolvedOutcome]
         scriptsAppended := 0
         armed := [] }, 0) := by
  rfl

/-- C1 counterexample: `processEmbed` performs no Loaded check of its own.
Invoked directly (as a scheduled retry would) on a wrapper already in the
Loaded state, it inserts a second embed blockquote and invokes the
post-processing hook again, refuting the claimed idempotence of the
activation operation itself. -/
theorem c1_counterexample :
    ((processEmbed CONFIG true false (fun _ => false) loadedWrapper).1.embeds.length = 2
      ∧ (processEmbed CONFIG true false (fun _ => false) loadedWrapper).2.hookCalls = 1)
      ∧ loadedWrapper.loadedClass = true ∧ loadedWrapper.embeds.length = 1 := by
  decide

/-- C1 amended: the Loaded-mark idempotence guard lives at the trigger
entry points, not inside `processEmbed`: the manual button handler, the
intersection-observer callback and the eager preload pass each check the
`loaded` class first and no-op on a Loaded wrapper — no DOM insertion, no
gate call, no hook call.  An unguarded invocation (a scheduled retry)
bypasses this. -/
theorem c1_amended_triggers_guarded (cfg : Config) (hookPresent hookThrows : Bool)
    (fails : Nat → Bool) (isIntersecting isVisible : Bool) (w : Wrapper)
    (h : w.loadedClass = true) :
    manualClick cfg hookPresent hookThrows fails w = (w, Effects.empty)
      ∧ observerTrigger cfg hookPresent hookThrows fails isIntersecting w
          = (w, Effects.empty)
      ∧ preloadTrigger cfg hookPresent hookThrows fails isVisible w
          = (w, Effects.empty) := by
  simp [manualClick, observerTrigger, preloadTrigger, h]

/-- Witness for `c1_amended_triggers_guarded` at the concrete Loaded
wrapper. -/
theorem c1_amended_triggers_guarded_witness :
    loadedWrapper.loadedClass = true
      ∧ (manualClick CONFIG true false (fun _ => false) loadedWrapper
            = (loadedWrapper, Effects.empty)
          ∧ observerTrigger CONFIG true false (fun _ => false) true loadedWrapper
              = (loadedWrapper, Effects.empty)
          ∧ preloadTrigger CONFIG true false (fun _ => false) true loadedWrapper
              = (loadedWrapper, Effects.empty)) :=
  ⟨by decide,
   c1_amended_triggers_guarded CONFIG true false (fun _ => false) true true
     loadedWrapper (by decide)⟩

/-- Helper: the validation branch of `processEmbed` does not depend on the
termination fuel. -/
theorem processEmbedAux_invalid (cfg : Config) (hookPresent hookThrows : Bool)
    (fails : Nat → Bool) (fuel retryCount : Nat) (w : Wrapper)
    (h : w.permalink = none ∨ w.placeholder = none) :
    processEmbedAux cfg hookPresent hookThrows fails fuel w retryCount =
      (w, { Effects.empty with warns := 1, invocations := [retryCount] }) := by
  obtain ⟨pl, ph, e, l⟩ := w
  rcases h with h | h
  · simp only [] at h
    subst h
    cases fuel <;> cases ph <;> rfl
  · simp only [] at h
    subst h
    cases fuel <;> cases pl <;> rfl

/-- C7: on a wrapper missing the permalink attribute or the placeholder
child, `processEmbed` only warns and returns: the wrapper is unchanged (no
DOM mutation, no visible error), the gate is never called, no retry is
scheduled and no hook runs. -/
theorem c7_invalid_wrapper_aborts_silently (cfg : Config)
    (hookPresent hookThrows : Bool) (fails : Nat → Bool) (w : Wrapper)
    (retryCount : Nat) (h : w.permalink = none ∨ w.placeholder = none) :
    processEmbed cfg hookPresent hookThrows fails w retryCount =
      (w, { Effects.empty with warns := 1, invocations := [retryCount] }) :=
  processEmbedAux_invalid cfg hookPresent hookThrows fails
    (cfg.maxRetries - retryCount) retryCount w h

/-- Helper: the success branch of an attempt does not depend on the
termination fuel. -/
theorem processEmbedAux_success (cfg : Config) (hookPresent hookThrows : Bool)
    (fails : Nat → Bool) (fuel retryCount : Nat) (pl : String)
    (ph : Placeholder) (e : List String) (l : Bool)
    (hf : fails retryCount = false) :
    processEmbedAux cfg hookPresent hookThrows fails fuel
        ⟨some pl, some ph, e, l⟩ retryCount =
      (⟨some pl, some { ph with displayNone := true },
        e ++ [createInstagramEmbed pl], true⟩,
       { Effects.empty with
           scriptLoadCalls := 1
           invocations := [retryCount]
           hookCalls := if hookPresent then 1 else 0
           hookErrorsLogged := if hookPresent && hookThrows then 1 else 0 }) := by
  cases fuel <;> simp [processEmbedAux, hf]

/-- C8: on a successful insertion, the post-processing hook is invoked
exactly when present, and a hook exception is only caught and logged: the
resulting wrapper — `loaded` class set, embed attached — is the same
whether or not the hook throws, and no retry is scheduled either way. -/
theorem c8_hook_best_effort (cfg : Config) (hookThrows : Bool)
    (fails : Nat → Bool) (w : Wrapper) (pl : String) (ph : Placeholder)
    (hpl : w.permalink = some pl) (hph : w.placeholder = some ph)
    (hf : fails 0 = false) :
    ((processEmbed cfg true hookThrows fails w).1.loadedClass = true
        ∧ (processEmbed cfg true hookThrows fails w).1.embeds
            = w.embeds ++ [createInstagramEmbed pl])
      ∧ (processEmbed cfg true hookThrows fails w).1
          = (processEmbed cfg true false fails w).1
      ∧ (processEmbed cfg true hookThrows fails w).2.hookCalls = 1
      ∧ (processEmbed cfg true hookThrows fails w).2.retryDelays = []
      ∧ (processEmbed cfg false hookThrows fails w).2.hookCalls = 0
      ∧ (processEmbed cfg true true fails w).2.hookErrorsLogged = 1 := by
  obtain ⟨pl', ph', e, l⟩ := w
  obtain rfl : pl' = some pl := hpl
  obtain rfl : ph' = some ph := hph
  have h1 := processEmbedAux_success cfg true hookThrows fails
    cfg.maxRetries 0 pl ph e l hf
  have h2 := processEmbedAux_success cfg true false fails
    cfg.maxRetries 0 pl ph e l hf
  have h3 := processEmbedAux_success cfg false hookThrows fails
    cfg.maxRetries 0 pl ph e l hf
  have h4 := processEmbedAux_success cfg true true fails
    cfg.maxRetries 0 pl ph e l hf
  simp [processEmbed, Effects.empty, h1, h2, h3, h4]

/-- Witness for `c8_hook_best_effort` at the concrete valid wrapper with a
throwing hook. -/
theorem c8_hook_best_effort_witness :
    (validWrapper.permalink = some "https://www.instagram.com/p/TEST/"
        ∧ validWrapper.placeholder
            = some { hasOverlay := true, overlayErrorShown := false,
                     displayNone := false }
        ∧ (fun _ : Nat => false) 0 = false)
      ∧ (((processEmbed CONFIG true true (fun _ => false) validWrapper).1.loadedClass
              = true
            ∧ (processEmbed CONFIG true true (fun _ => false) validWrapper).1.embeds
                = validWrapper.embeds
                    ++ [createInstagramEmbed "https://www.instagram.com/p/TEST/"])
          ∧ (processEmbed CONFIG true true (fun _ => false) validWrapper).1
              = (processEmbed CONFIG true false (fun _ => false) validWrapper).1
          ∧ (processEmbed CONFIG true true (fun _ => false) validWrapper).2.hookCalls
              = 1
          ∧ (processEmbed CONFIG true true (fun _ => false) validWrapper).2.retryDelays
              = []
          ∧ (processEmbed CONFIG false true (fun _ => false) validWrapper).2.hookCalls
              = 0
          ∧ (processEmbed CONFIG true true (fun _ => false) validWrapper).2.hookErrorsLogged
              = 1) :=
  ⟨⟨rfl, rfl, rfl⟩,
   c8_hook_best_effort CONFIG true (fun _ => false) validWrapper
     "https://www.instagram.com/p/TEST/"
     { hasOverlay := true, overlayErrorShown := false, displayNone := false }
     rfl rfl rfl⟩

/-- Helper: a chain whose every loading attempt fails runs the catch block
once per attempt, scheduling a retry after `retryDelay * (retryCount + 1)`
while `retryCount < maxRetries`, and ends in the terminal-failure branch.
The fuel is kept equal to `maxRetries - retryCount` by the hypothesis. -/
theorem processEmbedAux_all_fail (cfg : Config) (hookPresent hookThrows : Bool)
    (pl : String) (ph : Placeholder) (e : List String) (l : Bool) :
    ∀ fuel retryCount, retryCount + fuel = cfg.maxRetries →
      processEmbedAux cfg hookPresent hookThrows (fun _ => true) fuel
          ⟨some pl, some ph, e, l⟩ retryCount =
        (showErrorState ⟨some pl, some ph, e, l⟩,
         { warns := 0
           scriptLoadCalls := fuel + 1
           invocations := List.range' retryCount (fuel + 1)
           retryDelays := (List.range' retryCount fuel).map
             (fun n => cfg.retryDelay * (n + 1))
           hookCalls := 0
           hookErrorsLogged := 0
           maxRetriesErrors := 1 }) := by
  intro fuel
  induction fuel with
  | zero =>
    intro rc h
    have hnlt : ¬ rc < cfg.maxRetries := by omega
    simp [processEmbedAux, hnlt, Effects.empty]
  | succ f ih =>
    intro rc h
    have hlt : rc < cfg.maxRetries := by omega
    simp [processEmbedAux, hlt, ih (rc + 1) (by omega), List.range'_succ]

/-- C3: a valid wrapper whose loading attempt always fails is attempted
exactly `maxRetries + 1` times; the retry after the attempt with
`retryCount = n` is scheduled with delay `retryDelay * (n + 1)` (so
`maxRetries` retries in all, then the chain ends); the final attempt runs
the terminal branch, rendering the error affordance, and the chain
schedules nothing further. -/
theorem c3_retry_bound (cfg : Config) (hookPresent hookThrows : Bool)
    (w : Wrapper) (pl : String) (ph : Placeholder)
    (hpl : w.permalink = some pl) (hph : w.placeholder = some ph) :
    processEmbed cfg hookPresent hookThrows (fun _ => true) w =
      (showErrorState w,
       { warns := 0
         scriptLoadCalls := cfg.maxRetries + 1
         invocations := List.range (cfg.maxRetries + 1)
         retryDelays := (List.range cfg.maxRetries).map
           (fun n => cfg.retryDelay * (n + 1))
         hookCalls := 0
         hookErrorsLogged := 0
         maxRetriesErrors := 1 })
      ∧ (processEmbed cfg hookPresent hookThrows (fun _ => true) w).2.invocations.length
          = cfg.maxRetries + 1 := by
  obtain ⟨pl', ph', e, l⟩ := w
  obtain rfl : pl' = some pl := hpl
  obtain rfl : ph' = some ph := hph
  have h := processEmbedAux_all_fail cfg hookPresent hookThrows pl ph e l
    cfg.maxRetries 0 (by omega)
  constructor
  · simpa [processEmbed, List.range_eq_range'] using h
  · simp [processEmbed, List.range_eq_range', h]

/-- Witness for `c3_retry_bound` at the default `CONFIG` and the concrete
valid wrapper: 4 attempts, retry delays 1000ms, 2000ms, 3000ms. -/
theorem c3_retry_bound_witness :
    (validWrapper.permalink = some "https://www.instagram.com/p/TEST/"
        ∧ validWrapper.placeholder
            = some { hasOverlay := true, overlayErrorShown := false,
                     displayNone := false })
      ∧ (processEmbed CONFIG true false (fun _ => true) validWrapper =
          (showErrorState validWrapper,
           { warns := 0
             scriptLoadCalls := CONFIG.maxRetries + 1
             invocations := List.range (CONFIG.maxRetries + 1)
             retryDelays := (List.range CONFIG.maxRetries).map
               (fun n => CONFIG.retryDelay * (n + 1))
             hookCalls := 0
             hookErrorsLogged := 0
             maxRetriesErrors := 1 })
          ∧ (processEmbed CONFIG true false (fun _ => true) validWrapper).2.invocations.length
              = CONFIG.maxRetries + 1)
      ∧ (processEmbed CONFIG true false (fun _ => true) validWrapper).2.invocations
          = [0, 1, 2, 3]
      ∧ (processEmbed CONFIG true false (fun _ => true) validWrapper).2.retryDelays
          = [1000, 2000, 3000] :=
  ⟨⟨rfl, rfl⟩,
   c3_retry_bound CONFIG true false validWrapper
     "https://www.instagram.com/p/TEST/"
     { hasOverlay := true, overlayErrorShown := false, displayNone := false }
     rfl rfl,
   by decide, by decide⟩

/-- C10: the terminal-failure branch renders the error affordance only when
the placeholder and, inside it, the overlay are both present; with the
overlay (or the placeholder) absent it completes without any effect, so an
always-failing chain on an overlay-less wrapper leaves the wrapper exactly
as it was — the failure is invisible. -/
theorem c10_error_affordance_requires_overlay (cfg : Config)
    (hookPresent hookThrows : Bool) :
    (∀ w : Wrapper, w.placeholder = none → showErrorState w = w)
      ∧ (∀ (w : Wrapper) (ph : Placeholder), w.placeholder = some ph →
           ph.hasOverlay = false → showErrorState w = w)
      ∧ (∀ (w : Wrapper) (ph : Placeholder), w.placeholder = some ph →
           ph.hasOverlay = true →
           showErrorState w
             = { w with
                 placeholder := some { ph with overlayErrorShown := true } })
      ∧ (∀ (w : Wrapper) (pl : String) (ph : Placeholder),
           w.permalink = some pl → w.placeholder = some ph →
           ph.hasOverlay = false →
           (processEmbed cfg hookPresent hookThrows (fun _ => true) w).1 = w) := by
  refine ⟨?_, ?_, ?_, ?_⟩
  · intro w h
    simp [showErrorState, h]
  · intro w ph h hov
    simp [showErrorState, h, hov]
  · intro w ph h hov
    simp [showErrorState, h, hov]
  · intro w pl ph hpl hph hov
    obtain ⟨pl', ph', e, l⟩ := w
    obtain rfl : pl' = some pl := hpl
    obtain rfl : ph' = some ph := hph
    have h := processEmbedAux_all_fail cfg hookPresent hookThrows pl ph e l
      cfg.maxRetries 0 (by omega)
    simp [processEmbed, h, showErrorState, hov]

/-- Witness for `c10_error_affordance_requires_overlay` at the concrete
overlay-less wrapper. -/
theorem c10_error_affordance_requires_overlay_witness :
    (noOverlayWrapper.placeholder
        = some { hasOverlay := false, overlayErrorShown := false,
                 displayNone := false }
      ∧ noOverlayWrapper.permalink = some "https://www.instagram.com/p/TEST/")
      ∧ showErrorState noOverlayWrapper = noOverlayWrapper
      ∧ (processEmbed CONFIG true false (fun _ => true) noOverlayWrapper).1
          = noOverlayWrapper :=
  ⟨⟨rfl, rfl⟩,
   (c10_error_affordance_requires_overlay CONFIG true false).2.1 noOverlayWrapper
     { hasOverlay := false, overlayErrorShown := false, displayNone := false }
     rfl rfl,
   (c10_error_affordance_requires_overlay CONFIG true false).2.2.2 noOverlayWrapper
     "https://www.instagram.com/p/TEST/"
     { hasOverlay := false, overlayErrorShown := false, displayNone := false }
     rfl rfl rfl⟩

/-- Helper: every `retryCount` an activation chain is invoked with is
bounded by the starting count plus the fuel. -/
theorem processEmbedAux_invocations_le (cfg : Config)
    (hookPresent hookThrows : Bool) (fails : Nat → Bool) :
    ∀ (fuel : Nat) (w : Wrapper) (retryCount n : Nat),
      n ∈ (processEmbedAux cfg hookPresent hookThrows fails
             fuel w retryCount).2.invocations →
      n ≤ retryCount + fuel := by
  intro fuel
  induction fuel with
  | zero =>
    intro w rc n hn
    obtain ⟨pl, ph, e, l⟩ := w
    cases pl with
    | none =>
      cases ph <;> simp [processEmbedAux] at hn <;> omega
    | some pl =>
      cases ph with
      | none => simp [processEmbedAux] at hn; omega
      | some ph =>
        by_cases hf : fails rc = true
        · by_cases hlt : rc < cfg.maxRetries
          · simp [processEmbedAux, hf, hlt] at hn; omega
          · simp [processEmbedAux, hf, hlt] at hn; omega
        · simp [processEmbedAux, hf] at hn; omega
  | succ f ih =>
    intro w rc n hn
    obtain ⟨pl, ph, e, l⟩ := w
    cases pl with
    | none =>
      cases ph <;> simp [processEmbedAux] at hn <;> omega
    | some pl =>
      cases ph with
      | none => simp [processEmbedAux] at hn; omega
      | some ph =>
        by_cases hf : fails rc = true
        · by_cases hlt : rc < cfg.maxRetries
          · simp [processEmbedAux, hf, hlt] at hn
            rcases hn with hn | hn
            · omega
            · have := ih ⟨some pl, some ph, e, l⟩ (rc + 1) n hn
              omega
          · simp [processEmbedAux, hf, hlt] at hn; omega
        · simp [processEmbedAux, hf] at hn; omega

/-- C4 counterexample: the failed-attempt count is not per-descriptor state
reset only by a page reload.  After a full failing chain leaves the
descriptor in terminal Failed state (not `loaded`), an in-page manual
trigger click invokes `processEmbed(wrapper)` afresh with the default
`retryCount = 0`, and the attempt counts run `0, 1, 2, 3` all over
again. -/
theorem c4_counterexample :
    ((processEmbed CONFIG true false (fun _ => true) validWrapper).1.loadedClass
          = false
        ∧ (processEmbed CONFIG true false (fun _ => true) validWrapper).2.maxRetriesErrors
            = 1)
      ∧ (manualClick CONFIG true false (fun _ => true)
           (processEmbed CONFIG true false (fun _ => true) validWrapper).1).2.invocations
          = [0, 1, 2, 3] := by
  decide

/-- C4 amended: the retry counter is local to one activation call chain — a
parameter, not descriptor state.  Within a chain started by a trigger it
stays in `[0, maxRetries]`, but any new trigger invocation on a non-Loaded
descriptor (e.g. a manual click) starts a fresh chain whose count begins at
0 again. -/
theorem c4_amended_counter_chain_local (cfg : Config)
    (hookPresent hookThrows : Bool) (fails : Nat → Bool) (w : Wrapper)
    (h : w.loadedClass = false) :
    manualClick cfg hookPresent hookThrows fails w
        = processEmbed cfg hookPresent hookThrows fails w
      ∧ ∀ n ∈ (processEmbed cfg hookPresent hookThrows fails w).2.invocations,
          n ≤ cfg.maxRetries := by
  constructor
  · simp [manualClick, h]
  · intro n hn
    simp only [processEmbed] at hn
    have := processEmbedAux_invocations_le cfg hookPresent hookThrows fails
      (cfg.maxRetries - 0) w 0 n hn
    omega

/-- Witness for `c4_amended_counter_chain_local` at the concrete valid
wrapper with an always-failing load. -/
theorem c4_amended_counter_chain_local_witness :
    validWrapper.loadedClass = false
      ∧ (manualClick CONFIG true false (fun _ => true) validWrapper
            = processEmbed CONFIG true false (fun _ => true) validWrapper
          ∧ ∀ n ∈ (processEmbed CONFIG true false (fun _ => true) validWrapper).2.invocations,
              n ≤ CONFIG.maxRetries) :=
  ⟨rfl,
   c4_amended_counter_chain_local CONFIG true false (fun _ => true)
     validWrapper rfl⟩

/-- C5 counterexample: the two automatic trigger paths can together invoke
activation twice on one descriptor in a single execution.  The `loaded`
class is set only when an activation completes, so if the eager preload
pass runs while the observer-started activation is still awaiting the
script, its Loaded check passes and a second activation starts; when both
complete, two embed blockquotes are attached. -/
theorem c5_counterexample :
    (runPage validWrapper [.observerFire, .preloadRun]).started = 2
      ∧ (runPage validWrapper
           [.observerFire, .preloadRun, .complete, .complete]).w.embeds.length
          = 2 := by
  decide

/-- C5 amended: each automatic trigger path checks the `loaded` class, so
once an activation has completed no event starts another activation (and
the observer is one-shot besides); a visible descriptor is activated twice
only when the second trigger fires before the first activation completes,
as when the observer's activation finishes before the preload pass runs the
descriptor is activated exactly once. -/
theorem c5_amended_loaded_blocks_reactivation :
    (∀ (s : PageState) (e : PageEv), s.w.loadedClass = true →
        (pageStep s e).started = s.started)
      ∧ (∀ s : PageState, s.observed = false → pageStep s .observerFire = s)
      ∧ (runPage validWrapper [.observerFire, .complete, .preloadRun]).started
          = 1 := by
  refine ⟨?_, ?_, by decide⟩
  · intro s e h
    cases e with
    | observerFire => by_cases ho : s.observed <;> simp [pageStep, h, ho]
    | preloadRun => simp [pageStep, h]
    | complete => cases hp : s.pending <;> simp [pageStep, hp]
  · intro s h
    simp [pageStep, h]

/-- Witness for `c5_amended_loaded_blocks_reactivation` at a concrete
Loaded descriptor state. -/
theorem c5_amended_loaded_blocks_reactivation_witness :
    (initPage loadedWrapper).w.loadedClass = true
      ∧ (pageStep (initPage loadedWrapper) .preloadRun).started
          = (initPage loadedWrapper).started :=
  ⟨rfl,
   c5_amended_loaded_blocks_reactivation.1 (initPage loadedWrapper)
     .preloadRun rfl⟩

/-- A trace in which no script-load error event occurs. -/
def errorFree (tr : List LoaderEv) : Bool :=
  tr.all fun e =>
    match e with
    | .onerror _ => false
    | _ => true

/-- Inductive invariant of the gate under error-free traces: at most one
script element appended; while no promise object is stored, nothing has
happened at all; every promise handed to a caller is the stored one; and no
promise has been rejected. -/
def LoaderInv (sr : LoaderState × List Nat) : Prop :=
  sr.1.scriptsAppended ≤ 1
    ∧ (sr.1.instagramScriptPromise = none →
        sr.1.scriptsAppended = 0 ∧ sr.1.armed = [] ∧ sr.2 = []
          ∧ sr.1.isInstagramScriptLoaded = false)
    ∧ (∀ q ∈ sr.2, sr.1.instagramScriptPromise = some q)
    ∧ (∀ o ∈ sr.1.promises, o ≠ PromiseOutcome.rejectedOutcome)

/-- Helper: one error-free gate event preserves the invariant. -/
theorem loaderStep_inv (sr : LoaderState × List Nat) (e : LoaderEv)
    (he : (match e with | LoaderEv.onerror _ => false | _ => true) = true)
    (h : LoaderInv sr) : LoaderInv (loaderStep sr e) := by
  obtain ⟨s, ret⟩ := sr
  obtain ⟨h1, h2, h3, h4⟩ := h
  cases e with
  | call existing =>
    simp only [loaderStep, loadInstagramScript]
    cases hpv : s.instagramScriptPromise with
    | some p =>
      refine ⟨h1, ?_, ?_, h4⟩
      · intro hnone
        simp only [] at hnone
        rw [hpv] at hnone
        exact absurd hnone (by simp)
      · intro q hq
        simp only [] at hq ⊢
        rcases List.mem_append.1 hq with hq | hq
        · exact h3 q hq
        · simp only [List.mem_singleton] at hq
          subst hq
          exact hpv
    | none =>
      obtain ⟨ha0, harm, hret, hld⟩ := h2 hpv
      rw [hld]
      subst hret
      cases existing with
      | true =>
        refine ⟨by simpa using h1, by simp, by simp, ?_⟩
        intro o ho
        simp only [] at ho
        rcases List.mem_append.1 ho with ho | ho
        · exact h4 o ho
        · simp only [List.mem_singleton] at ho
          subst ho
          simp
      | false =>
        refine ⟨by simp [show s.scriptsAppended = 0 from ha0], by simp,
          by simp, ?_⟩
        intro o ho
        simp only [] at ho
        rcases List.mem_append.1 ho with ho | ho
        · exact h4 o ho
        · simp only [List.mem_singleton] at ho
          subst ho
          simp
  | onload pid =>
    simp only [loaderStep, scriptOnload]
    by_cases hm : pid ∈ s.armed
    · simp only [hm, if_true]
      refine ⟨h1, ?_, h3, ?_⟩
      · intro hnone
        simp only [] at hnone
        obtain ⟨_, harm, _, _⟩ := h2 hnone
        rw [harm] at hm
        exact absurd hm (by simp)
      · intro o ho
        simp only [] at ho
        rcases List.mem_or_eq_of_mem_set ho with ho | ho
        · exact h4 o ho
        · subst ho
          simp
    · simp only [hm, if_false]
      exact ⟨h1, h2, h3, h4⟩
  | onerror pid =>
    simp at he

/-- Helper: the invariant holds after any error-free trace from any state
satisfying it. -/
theorem foldl_loaderStep_inv :
    ∀ (tr : List LoaderEv) (sr : LoaderState × List Nat),
      errorFree tr = true → LoaderInv sr →
      LoaderInv (tr.foldl loaderStep sr)
  | [], _, _, hs => hs
  | e :: tr, sr, h, hs => by
    rw [errorFree, List.all_cons, Bool.and_eq_true] at h
    exact foldl_loaderStep_inv tr (loaderStep sr e)
      h.2 (loaderStep_inv sr e h.1 hs)

/-- C2: over any page lifetime with no script-load error, at most one
script element is ever created and appended, every caller of the gate is
handed the same promise object — so all observe the same eventual outcome —
and no promise anyone holds is rejected. -/
theorem c2_at_most_once_injection (tr : List LoaderEv)
    (h : errorFree tr = true) :
    (runLoader tr).1.scriptsAppended ≤ 1
      ∧ (∀ p ∈ (runLoader tr).2, ∀ q ∈ (runLoader tr).2, p = q)
      ∧ (∀ o ∈ (runLoader tr).1.promises,
           o ≠ PromiseOutcome.rejectedOutcome) := by
  have hi : LoaderInv (runLoader tr) :=
    foldl_loaderStep_inv tr (initLoader, []) h
      ⟨by simp [initLoader], fun _ => ⟨rfl, rfl, rfl, rfl⟩,
       by simp, by simp [initLoader]⟩
  refine ⟨hi.1, ?_, hi.2.2.2⟩
  intro p hp q hq
  have hap := hi.2.2.1 p hp
  have haq := hi.2.2.1 q hq
  rw [hap] at haq
  exact Option.some.inj haq

/-- Witness for `c2_at_most_once_injection` on a trace of three calls
around one successful load. -/
theorem c2_at_most_once_injection_witness :
    errorFree [LoaderEv.call false, LoaderEv.call false,
               LoaderEv.onload 0, LoaderEv.call true] = true
      ∧ ((runLoader [LoaderEv.call false, LoaderEv.call false,
                     LoaderEv.onload 0, LoaderEv.call true]).1.scriptsAppended ≤ 1
          ∧ (∀ p ∈ (runLoader [LoaderEv.call false, LoaderEv.call false,
                               LoaderEv.onload 0, LoaderEv.call true]).2,
               ∀ q ∈ (runLoader [LoaderEv.call false, LoaderEv.call false,
                                 LoaderEv.onload 0, LoaderEv.call true]).2, p = q)
          ∧ (∀ o ∈ (runLoader [LoaderEv.call false, LoaderEv.call false,
                               LoaderEv.onload 0, LoaderEv.call true]).1.promises,
               o ≠ PromiseOutcome.rejectedOutcome)) :=
  ⟨rfl,
   c2_at_most_once_injection
     [LoaderEv.call false, LoaderEv.call false,
      LoaderEv.onload 0, LoaderEv.call true] rfl⟩

/-- C6 counterexample: a future gate call does not re-attempt the network
fetch after a script-load error.  Starting from a clean page: one call
appends the script element (promise 0 pending), its `onerror` fires — which
nulls the stored promise and rejects promise 0 but leaves the element in
the document — and the next call then finds that stale element via
`querySelector`, marks the script Loaded and resolves at once: still only
one element ever appended, nothing armed (no fetch in flight), and the
second caller holds an already-resolved promise. -/
theorem c6_counterexample :
    ((runGate false [GateEv.call, GateEv.onerror 0, GateEv.call]).1.loader.scriptsAppended
          = 1
        ∧ (runGate false [GateEv.call, GateEv.onerror 0, GateEv.call]).1.loader.isInstagramScriptLoaded
            = true
        ∧ (runGate false [GateEv.call, GateEv.onerror 0, GateEv.call]).1.loader.armed
            = [])
      ∧ (runGate false [GateEv.call, GateEv.onerror 0, GateEv.call]).1.loader.promises
          = [PromiseOutcome.rejectedOutcome, PromiseOutcome.resolvedOutcome] := by
  decide

/-- C6 amended: on script-load error the stored promise is nulled — the
gate keeps no terminal Failed state and the not-loaded flag is unchanged —
and the shared in-flight promise every awaiting caller holds is rejected;
but the failed script element stays in the document, so the next gate call
finds it via the existing-script check, marks the script Loaded and
resolves immediately: no new element is appended, no load handler armed, no
network fetch re-attempted — readiness is assumed from the stale
element. -/
theorem c6_amended_error_then_stale_element (g : GateState) (p : Nat)
    (hpv : g.loader.instagramScriptPromise = some p)
    (ha : p ∈ g.loader.armed)
    (hlen : p < g.loader.promises.length)
    (hld : g.loader.isInstagramScriptLoaded = false)
    (hdoc : g.scriptInDocument = true) :
    (gateOnerror p g).loader.instagramScriptPromise = none
      ∧ (gateOnerror p g).loader.isInstagramScriptLoaded = false
      ∧ (gateOnerror p g).loader.promises[p]?
          = some PromiseOutcome.rejectedOutcome
      ∧ (gateOnerror p g).scriptInDocument = true
      ∧ (gateCall (gateOnerror p g)).1.loader.scriptsAppended
          = g.loader.scriptsAppended
      ∧ (gateCall (gateOnerror p g)).1.loader.armed
          = (gateOnerror p g).loader.armed
      ∧ (gateCall (gateOnerror p g)).1.loader.isInstagramScriptLoaded = true
      ∧ (gateCall (gateOnerror p g)).1.loader.promises[(gateCall (gateOnerror p g)).2]?
          = some PromiseOutcome.resolvedOutcome := by
  have hs' : gateOnerror p g =
      { g with loader :=
          { g.loader with
              instagramScriptPromise := none
              promises := g.loader.promises.set p PromiseOutcome.rejectedOutcome
              armed := g.loader.armed.erase p } } := by
    simp [gateOnerror, scriptOnerror, ha]
  have hcall : gateCall (gateOnerror p g) =
      ({ loader :=
           { g.loader with
               isInstagramScriptLoaded := true
               instagramScriptPromise := some (g.loader.promises.set p
                 PromiseOutcome.rejectedOutcome).length
               promises := g.loader.promises.set p PromiseOutcome.rejectedOutcome
                 ++ [PromiseOutcome.resolvedOutcome]
               armed := g.loader.armed.erase p }
         scriptInDocument := true },
       (g.loader.promises.set p PromiseOutcome.rejectedOutcome).length) := by
    rw [hs']
    simp [gateCall, loadInstagramScript, hld, hdoc]
  refine ⟨by rw [hs'], by rw [hs']; exact hld, ?_, by rw [hs']; exact hdoc,
    by rw [hcall], by rw [hcall, hs'], by rw [hcall], ?_⟩
  · rw [hs']
    simpa using List.getElem?_set_self hlen
  · rw [hcall]
    exact List.getElem?_concat_length _ _

/-- Witness for `c6_amended_error_then_stale_element` at the state after
one gate call on a clean page, whose appended script element then
errors. -/
theorem c6_amended_error_then_stale_element_witness :
    ((runGate false [GateEv.call]).1.loader.instagramScriptPromise = some 0
        ∧ 0 ∈ (runGate false [GateEv.call]).1.loader.armed
        ∧ 0 < (runGate false [GateEv.call]).1.loader.promises.length
        ∧ (runGate false [GateEv.call]).1.loader.isInstagramScriptLoaded = false
        ∧ (runGate false [GateEv.call]).1.scriptInDocument = true)
      ∧ ((gateOnerror 0 (runGate false [GateEv.call]).1).loader.instagramScriptPromise
            = none
          ∧ (gateOnerror 0 (runGate false [GateEv.call]).1).loader.isInstagramScriptLoaded
              = false
          ∧ (gateOnerror 0 (runGate false [GateEv.call]).1).loader.promises[(0 : Nat)]?
              = some PromiseOutcome.rejectedOutcome
          ∧ (gateOnerror 0 (runGate false [GateEv.call]).1).scriptInDocument
              = true
          ∧ (gateCall (gateOnerror 0 (runGate false [GateEv.call]).1)).1.loader.scriptsAppended
              = (runGate false [GateEv.call]).1.loader.scriptsAppended
          ∧ (gateCall (gateOnerror 0 (runGate false [GateEv.call]).1)).1.loader.armed
              = (gateOnerror 0 (runGate false [GateEv.call]).1).loader.armed
          ∧ (gateCall (gateOnerror 0 (runGate false [GateEv.call]).1)).1.loader.isInstagramScriptLoaded
              = true
          ∧ (gateCall (gateOnerror 0 (runGate false [GateEv.call]).1)).1.loader.promises[(gateCall
                (gateOnerror 0 (runGate false [GateEv.call]).1)).2]?
              = some PromiseOutcome.resolvedOutcome) :=
  ⟨⟨rfl, by decide, by decide, rfl, rfl⟩,
   c6_amended_error_then_stale_element (runGate false [GateEv.call]).1 0
     rfl (by decide) (by decide) rfl rfl⟩

/-- Witness for `c7_invalid_wrapper_aborts_silently` at the concrete
permalink-less wrapper. -/
theorem c7_invalid_wrapper_aborts_silently_witness :
    (noPermalinkWrapper.permalink = none ∨ noPermalinkWrapper.placeholder = none)
      ∧ processEmbed CONFIG true false (fun _ => false) noPermalinkWrapper 0 =
          (noPermalinkWrapper,
           { Effects.empty with warns := 1, invocations := [0] }) :=
  ⟨Or.inl rfl,
   c7_invalid_wrapper_aborts_silently CONFIG true false (fun _ => false)
     noPermalinkWrapper 0 (Or.inl rfl)⟩

end LazyLoader
